import Mathlib

/-!
Verification of the Dobot CR5 AR teleoperation node
(`dobot_teleop/teleop.py`, class `ArTeleopPlannerReal`).

The Python node is shallowly embedded: its instance attributes become the
fields of `NodeState`, its callbacks become functions from state (and
message/time inputs) to state, with outgoing service calls and published
messages reified as `Effect` values, and with a raised Python exception
modelled as `Except.error`.  Numeric values are real numbers.
-/

namespace DobotTeleop

noncomputable section

/-- Configuration constant `MAX_JUMP_THRESHOLD = 40.0` from `__init__`. -/
def MAX_JUMP_THRESHOLD : ℝ := 40

/-- Configuration constant `MIN_MOVE_THRESHOLD = 2.0` from `__init__`. -/
def MIN_MOVE_THRESHOLD : ℝ := 2

/-- Configuration constant `CMD_INTERVAL = 0.033` (about 30 Hz) from `__init__`. -/
def CMD_INTERVAL : ℝ := 0.033

/-- Workspace envelope `LIMITS['x'] = (-800.0, 0.0)` from `__init__`. -/
def LIMITS_X : ℝ × ℝ := (-800, 0)

/-- Workspace envelope `LIMITS['y'] = (-500.0, 500.0)` from `__init__`. -/
def LIMITS_Y : ℝ × ℝ := (-500, 500)

/-- Workspace envelope `LIMITS['z'] = (155.0, 750.0)` from `__init__`. -/
def LIMITS_Z : ℝ × ℝ := (155, 750)

/-- `self.position_scale = 900.0` from `__init__` (never reassigned). -/
def POSITION_SCALE : ℝ := 900

/-- `self.rotation_scale = 180.0 / 3.14159265359` from `__init__` (never reassigned). -/
def ROTATION_SCALE : ℝ := 180 / 3.14159265359

/-- A 3-d position, mirroring `geometry_msgs` `Point`. -/
structure Vec3 where
  x : ℝ
  y : ℝ
  z : ℝ

/-- A quaternion, mirroring `geometry_msgs` `Quaternion`. -/
structure Quat where
  x : ℝ
  y : ℝ
  z : ℝ
  w : ℝ

/-- A pose (position and orientation), mirroring `geometry_msgs` `Pose`. -/
structure Pose where
  position : Vec3
  orientation : Quat

/-- The dictionary `self.initial_robot_pose = {'x': ..., 'y': ..., 'z': ...}`. -/
structure RobotPose where
  x : ℝ
  y : ℝ
  z : ℝ

/-- A Euler-angle triple, mirroring the 3-tuples returned by
`euler_from_quaternion` (indices 0, 1, 2). -/
abbrev Euler := ℝ × ℝ × ℝ

/-- The mutable instance attributes of `ArTeleopPlannerReal`.  Attributes that
Python leaves unset or set to `None` until a callback assigns them are
`Option`s; `none` for `last_cmd_time` models the attribute never having been
assigned (reading it then raises `AttributeError`). -/
structure NodeState where
  teleop_locked : Bool
  last_sent_coords : Option (ℝ × ℝ × ℝ)
  current_gripper_val : ℝ
  robot_enabled : Bool
  initialized : Bool
  robot_pose_initialized : Bool
  getting_initial_pose_flag : Bool
  initial_robot_pose : Option RobotPose
  initial_robot_euler : Option Euler
  initial_phone_pose : Option Pose
  initial_phone_euler : Option Euler
  last_cmd_time : Option ℝ

/-- The state established by `__init__`: locks cleared, nothing sent yet,
gripper open (1.0), nothing initialized, and — crucially — `last_cmd_time`
never assigned. -/
def initState : NodeState where
  teleop_locked := false
  last_sent_coords := none
  current_gripper_val := 1
  robot_enabled := false
  initialized := false
  robot_pose_initialized := false
  getting_initial_pose_flag := false
  initial_robot_pose := none
  initial_robot_euler := none
  initial_phone_pose := none
  initial_phone_euler := none
  last_cmd_time := none

/-- Lines 126–132 of `ar_pose_callback`: the candidate (pre-clamp) target
position.  `dx, dy, dz` are the scaled sensor deltas and the axes are
permuted with sign flips into the robot frame. -/
def target_position (irp : RobotPose) (ipp cur : Vec3) : ℝ × ℝ × ℝ :=
  let dx := (cur.x - ipp.x) * POSITION_SCALE
  let dy := (cur.y - ipp.y) * POSITION_SCALE
  let dz := (cur.z - ipp.z) * POSITION_SCALE
  (irp.x - dz, irp.y - dx, irp.z + dy)

/-- One axis of the envelope clamp: `max(lo, min(v, hi))` as in
`tx_safe = max(self.LIMITS['x'][0], min(tx, self.LIMITS['x'][1]))`. -/
def clamp1 (lo hi v : ℝ) : ℝ := max lo (min v hi)

/-- Lines 134–136: clamp each position axis to the workspace envelope. -/
def clampEnvelope (t : ℝ × ℝ × ℝ) : ℝ × ℝ × ℝ :=
  (clamp1 LIMITS_X.1 LIMITS_X.2 t.1,
   clamp1 LIMITS_Y.1 LIMITS_Y.2 t.2.1,
   clamp1 LIMITS_Z.1 LIMITS_Z.2 t.2.2)

/-- Lines 140–142: the target orientation.  `ph_e` is the sensor Euler
triple; the robot axes draw from sensor indices 1, 2, 0 respectively, each
as baseline plus scaled delta, with no sign flips. -/
def target_rotation (ire ipe ph_e : Euler) : ℝ × ℝ × ℝ :=
  (ire.1 + (ph_e.2.1 - ipe.2.1) * ROTATION_SCALE,
   ire.2.1 + (ph_e.2.2 - ipe.2.2) * ROTATION_SCALE,
   ire.2.2 + (ph_e.1 - ipe.1) * ROTATION_SCALE)

/-- Line 145: the Euclidean distance between a candidate target and the last
sent coordinates, `math.sqrt((tx_safe - last[0])**2 + ...)`. -/
def distOf (a b : ℝ × ℝ × ℝ) : ℝ :=
  Real.sqrt ((a.1 - b.1) ^ 2 + (a.2.1 - b.2.1) ^ 2 + (a.2.2 - b.2.2) ^ 2)

/-- Line 146: the jump/no-op rejection condition
`dist > self.MAX_JUMP_THRESHOLD or dist < self.MIN_MOVE_THRESHOLD`. -/
def rejectJump (cand l : ℝ × ℝ × ℝ) : Prop :=
  distOf cand l > MAX_JUMP_THRESHOLD ∨ distOf cand l < MIN_MOVE_THRESHOLD

/-- The jump/no-op filter as a whole: `if self.last_sent_coords:` guards the
distance test, so an absent last-sent target accepts unconditionally. -/
def filterAccept (last : Option (ℝ × ℝ × ℝ)) (cand : ℝ × ℝ × ℝ) : Prop :=
  match last with
  | none => True
  | some l => ¬ rejectJump cand l

/-- Observable outgoing actions of `ar_pose_callback`: the `ServoP` service
request (`send_servop`) and the `Float32MultiArray` publication on
`/teleop/target_pose`. -/
inductive Effect
  | servop (x y z rx ry rz : ℝ)
  | publishTarget (data : List ℝ)

/-- Lines 149–158: send the command, publish
`[x, y, z, rx, ry, rz, gripper]` for the recorder, then record
`last_sent_coords` and `last_cmd_time`. -/
def sendStep (s : NodeState) (ts r : ℝ × ℝ × ℝ) (current_time : ℝ) :
    Except String (NodeState × List Effect) :=
  Except.ok
    ({ s with last_sent_coords := some ts, last_cmd_time := some current_time },
     [Effect.servop ts.1 ts.2.1 ts.2.2 r.1 r.2.1 r.2.2,
      Effect.publishTarget
        [ts.1, ts.2.1, ts.2.2, r.1, r.2.1, r.2.2, s.current_gripper_val]])

/-- `handle_init`: before the robot pose is fetched, kick off (at most one)
asynchronous pose request; once it is available, capture the phone baseline
pose and Euler angles and mark the session initialized. -/
def handle_init (efq : Quat → Euler) (s : NodeState) (phone_pose : Pose) :
    NodeState :=
  if s.robot_pose_initialized = false then
    if s.getting_initial_pose_flag = false then
      { s with getting_initial_pose_flag := true }
    else s
  else
    { s with
        initial_phone_pose := some phone_pose
        initial_phone_euler := some (efq phone_pose.orientation)
        initialized := true }

open Classical in
/-- `ar_pose_callback` (lines 114–158).  `efq` abstracts the library function
`euler_from_quaternion`; `current_time` is the value of `time.time()`.
Reading `self.last_cmd_time` when the attribute was never assigned raises
`AttributeError`, modelled by `Except.error`; likewise reading `.position`
or indexing on a still-`None` baseline attribute. -/
def ar_pose_callback (efq : Quat → Euler) (s : NodeState)
    (msg : Pose) (current_time : ℝ) : Except String (NodeState × List Effect) :=
  if s.robot_enabled = false then Except.ok (s, [])
  else if s.teleop_locked = true then Except.ok (s, [])
  else
    match s.last_cmd_time with
    | none => Except.error "AttributeError: last_cmd_time"
    | some last_time =>
      if current_time - last_time < CMD_INTERVAL then Except.ok (s, [])
      else if s.initialized = false then Except.ok (handle_init efq s msg, [])
      else
        match s.initial_phone_pose, s.initial_robot_pose,
            s.initial_robot_euler, s.initial_phone_euler with
        | some ipp, some irp, some ire, some ipe =>
          let ts := clampEnvelope (target_position irp ipp.position msg.position)
          let r := target_rotation ire ipe (efq msg.orientation)
          (match s.last_sent_coords with
           | some l =>
             if rejectJump ts l then Except.ok (s, [])
             else sendStep s ts r current_time
           | none => sendStep s ts r current_time)
        | _, _, _, _ => Except.error "AttributeError: session baseline"

/-- Primitive steps of `_send_gripper_command`, in program order: the
pre-actuation sleep, the HTTP POST of the tool-data payload (or the logged
failure when it raises), and the `finally` block's settling sleep, clearing
of `last_sent_coords`, `wake_up_robot()` enable request, and unlocking. -/
inductive GripOp
  | sleepOp (seconds : ℚ)
  | postOp (payload : List ℕ)
  | logErrorOp
  | clearLastSentOp
  | enableRequestOp
  | unlockOp
deriving DecidableEq

/-- The tool-data payload chosen by `_send_gripper_command` for each action. -/
def gripperPayload (action : String) : List ℕ :=
  if action = "close" then [1, 6, 1, 3, 0, 0, 120, 54]
  else [1, 6, 1, 3, 3, 232, 120, 136]

/-- The step sequence of `_send_gripper_command action`.  `postFails` tells
whether the `requests.post` call raises; the `except` clause only logs, and
the `finally` clause runs in both cases. -/
def gripOps (action : String) (postFails : Bool) : List GripOp :=
  (if postFails then [GripOp.sleepOp (3 / 10), GripOp.logErrorOp]
   else [GripOp.sleepOp (3 / 10), GripOp.postOp (gripperPayload action)]) ++
  [GripOp.sleepOp 1, GripOp.clearLastSentOp, GripOp.enableRequestOp,
   GripOp.unlockOp]

/-- Effect of one `GripOp` on the node state: only `clearLastSentOp`
(`self.last_sent_coords = None`) and `unlockOp` (`self.teleop_locked = False`)
mutate it. -/
def applyGripOp (s : NodeState) : GripOp → NodeState
  | GripOp.clearLastSentOp => { s with last_sent_coords := none }
  | GripOp.unlockOp => { s with teleop_locked := false }
  | _ => s

/-- The state after `_send_gripper_command` runs to completion. -/
def _send_gripper_command (s : NodeState) (action : String) (postFails : Bool) :
    NodeState :=
  (gripOps action postFails).foldl applyGripOp s

/-- Events of the connection handshake driven by `async_clear_error` /
`clear_cb` and `async_enable_robot` / `enable_cb`: a `ClearError` request, an
`EnableRobot` request, the fixed 1-second retry delay of `create_timer(1.0, ...)`,
and the final `self.robot_enabled = True`. -/
inductive HsEvent
  | clearAttempt
  | enableAttempt
  | retryDelay (seconds : ℚ)
  | readySet
deriving DecidableEq

/-- The enable phase: `enable_cb` consumes one service result per attempt;
result `0` sets `robot_enabled`, anything else schedules a retry after the
fixed 1-second delay. -/
def enablePhase : List ℤ → List HsEvent
  | [] => []
  | r :: rs =>
    HsEvent.enableAttempt ::
      (if r = 0 then [HsEvent.readySet]
       else HsEvent.retryDelay 1 :: enablePhase rs)

/-- The clear-error phase: `clear_cb` consumes one service result per
attempt; result `0` hands over to the enable phase, anything else schedules a
retry of clear-error after the fixed 1-second delay. -/
def clearPhase : List ℤ → List ℤ → List HsEvent
  | [], _ => []
  | r :: rs, es =>
    HsEvent.clearAttempt ::
      (if r = 0 then enablePhase es
       else HsEvent.retryDelay 1 :: clearPhase rs es)

end

/-! ### Helper lemmas -/

/-- When every gate is open (robot enabled, unlocked, interval elapsed,
session initialized with all baselines set) and the jump filter accepts the
clamped candidate, the callback performs exactly the send step on the clamped
target position and the unclamped target rotation. -/
theorem callback_sends (efq : Quat → Euler) (s : NodeState) (msg : Pose)
    (t t0 : ℝ) (ipp : Pose) (irp : RobotPose) (ire ipe : Euler)
    (h1 : s.robot_enabled = true) (h2 : s.teleop_locked = false)
    (h3 : s.last_cmd_time = some t0) (h4 : ¬ (t - t0 < CMD_INTERVAL))
    (h5 : s.initialized = true)
    (h6 : s.initial_phone_pose = some ipp) (h7 : s.initial_robot_pose = some irp)
    (h8 : s.initial_robot_euler = some ire) (h9 : s.initial_phone_euler = some ipe)
    (h10 : filterAccept s.last_sent_coords
        (clampEnvelope (target_position irp ipp.position msg.position))) :
    ar_pose_callback efq s msg t =
      sendStep s (clampEnvelope (target_position irp ipp.position msg.position))
        (target_rotation ire ipe (efq msg.orientation)) t := by
  unfold ar_pose_callback
  rw [h1, h2, h3]
  simp only [Bool.true_eq_false, if_false, Bool.false_eq_true, if_neg h4]
  rw [h5]
  simp only [Bool.true_eq_false, if_false]
  rw [h6, h7, h8, h9]
  cases hls : s.last_sent_coords with
  | none => rfl
  | some l =>
    rw [hls] at h10
    simp only [filterAccept] at h10
    simp only [if_neg h10]

/-- When every gate is open but the jump filter rejects the clamped
candidate against the last sent coordinates, the callback drops the sample:
no effect, no state change. -/
theorem callback_drops (efq : Quat → Euler) (s : NodeState) (msg : Pose)
    (t t0 : ℝ) (ipp : Pose) (irp : RobotPose) (ire ipe : Euler)
    (l : ℝ × ℝ × ℝ)
    (h1 : s.robot_enabled = true) (h2 : s.teleop_locked = false)
    (h3 : s.last_cmd_time = some t0) (h4 : ¬ (t - t0 < CMD_INTERVAL))
    (h5 : s.initialized = true)
    (h6 : s.initial_phone_pose = some ipp) (h7 : s.initial_robot_pose = some irp)
    (h8 : s.initial_robot_euler = some ire) (h9 : s.initial_phone_euler = some ipe)
    (hls : s.last_sent_coords = some l)
    (hrj : rejectJump (clampEnvelope (target_position irp ipp.position msg.position)) l) :
    ar_pose_callback efq s msg t = Except.ok (s, []) := by
  unfold ar_pose_callback
  rw [h1, h2, h3]
  simp only [Bool.true_eq_false, if_false, Bool.false_eq_true, if_neg h4]
  rw [h5]
  simp only [Bool.true_eq_false, if_false]
  rw [h6, h7, h8, h9, hls]
  simp only [if_pos hrj]

/-- A sensor pose sitting at the origin with identity orientation. -/
def zeroPose : Pose := ⟨⟨0, 0, 0⟩, ⟨0, 0, 0, 1⟩⟩

/-- A concrete stand-in for `euler_from_quaternion`, returning the zero
Euler triple for every quaternion. -/
def efq0 : Quat → Euler := fun _ => (0, 0, 0)

/-- A fully initialized session: robot enabled, baselines captured (robot at
`(-100, 0, 300)` inside the envelope, phone at the origin with zero Euler
angles), a previously recorded command time `0`, and nothing sent yet. -/
def readyState : NodeState :=
  { initState with
      robot_enabled := true
      initialized := true
      robot_pose_initialized := true
      initial_robot_pose := some ⟨-100, 0, 300⟩
      initial_robot_euler := some (0, 0, 0)
      initial_phone_pose := some zeroPose
      initial_phone_euler := some (0, 0, 0)
      last_cmd_time := some 0 }

/-! ### Claim theorems -/

/-- C1: the enabled and lock gates do drop a sample silently, but the very
first sample that passes them raises `AttributeError`, because `__init__`
never assigns `last_cmd_time` and line 119 reads it unconditionally: the
claim that this first sample is handled without error is contradicted by the
code. -/
theorem c1_first_sample_raises :
    ar_pose_callback efq0 initState zeroPose 0 = Except.ok (initState, []) ∧
    ar_pose_callback efq0 { initState with teleop_locked := true, robot_enabled := true }
      zeroPose 0 = Except.ok ({ initState with teleop_locked := true, robot_enabled := true }, []) ∧
    ar_pose_callback efq0 { initState with robot_enabled := true } zeroPose 0 =
      Except.error "AttributeError: last_cmd_time" :=
  ⟨rfl, rfl, rfl⟩

/-- C2 counterexample: with baseline robot pose `(100, 0, 300)`, baseline
sensor pose at the origin and a sensor sample at `(0, 0, 0.01)`, the
candidate target is NOT `(100, 0, 309)` (x and y unchanged, z increased by
9) as the claim states. -/
theorem c2_counterexample :
    target_position ⟨100, 0, 300⟩ ⟨0, 0, 0⟩ ⟨0, 0, 0.01⟩ ≠ ((100 : ℝ), (0 : ℝ), (309 : ℝ)) := by
  simp only [target_position, POSITION_SCALE, Prod.mk.injEq, not_and]
  norm_num

/-- C2 (amended): a pure sensor `+z` delta of `0.01` with `position_scale =
900` moves the candidate target along robot `−x`: the x coordinate drops by
`0.01 × 900 = 9` units (to 91) while y and z stay at the baseline values. -/
theorem c2_target_shift :
    target_position ⟨100, 0, 300⟩ ⟨0, 0, 0⟩ ⟨0, 0, 0.01⟩ = ((91 : ℝ), (0 : ℝ), (300 : ℝ)) := by
  simp only [target_position, POSITION_SCALE, Prod.mk.injEq]
  norm_num

/-- C3 counterexample: with zero baselines and a sensor Euler triple
`(0, 0, 1)`, the code's target rotation is `(0, rotation_scale, 0)`, not the
`(−rotation_scale, 0, 0)` demanded by the claimed position-style mapping
(robot x ← −sensor z, robot y ← −sensor x, robot z ← +sensor y). -/
theorem c3_counterexample :
    target_rotation (0, 0, 0) (0, 0, 0) (0, 0, 1) ≠ (-ROTATION_SCALE, 0, 0) := by
  simp only [target_rotation, ROTATION_SCALE, Prod.mk.injEq, not_and]
  norm_num

/-- C3 (amended): the rotation axes are NOT remapped by the position
permutation: the callback sends Euler targets drawn cyclically and without
sign flips from the sensor triple — robot rx from sensor index 1, robot ry
from sensor index 2, robot rz from sensor index 0, each as baseline robot
Euler plus scaled delta. -/
theorem c3_rotation_mapping (efq : Quat → Euler) (s : NodeState) (msg : Pose)
    (t t0 : ℝ) (ipp : Pose) (irp : RobotPose) (ire ipe : Euler)
    (h1 : s.robot_enabled = true) (h2 : s.teleop_locked = false)
    (h3 : s.last_cmd_time = some t0) (h4 : ¬ (t - t0 < CMD_INTERVAL))
    (h5 : s.initialized = true)
    (h6 : s.initial_phone_pose = some ipp) (h7 : s.initial_robot_pose = some irp)
    (h8 : s.initial_robot_euler = some ire) (h9 : s.initial_phone_euler = some ipe)
    (h10 : filterAccept s.last_sent_coords
        (clampEnvelope (target_position irp ipp.position msg.position))) :
    ar_pose_callback efq s msg t =
      sendStep s (clampEnvelope (target_position irp ipp.position msg.position))
        (ire.1 + ((efq msg.orientation).2.1 - ipe.2.1) * ROTATION_SCALE,
         ire.2.1 + ((efq msg.orientation).2.2 - ipe.2.2) * ROTATION_SCALE,
         ire.2.2 + ((efq msg.orientation).1 - ipe.1) * ROTATION_SCALE) t :=
  callback_sends efq s msg t t0 ipp irp ire ipe h1 h2 h3 h4 h5 h6 h7 h8 h9 h10

/-- C3 witness: the amended rotation mapping evaluated on the concrete ready
state. -/
theorem c3_rotation_mapping_witness :
    ar_pose_callback efq0 readyState zeroPose 1 =
      sendStep readyState
        (clampEnvelope (target_position ⟨-100, 0, 300⟩ zeroPose.position zeroPose.position))
        ((0 : ℝ) + ((0 : ℝ) - 0) * ROTATION_SCALE,
         (0 : ℝ) + ((0 : ℝ) - 0) * ROTATION_SCALE,
         (0 : ℝ) + ((0 : ℝ) - 0) * ROTATION_SCALE) 1 :=
  c3_rotation_mapping efq0 readyState zeroPose 1 0 zeroPose ⟨-100, 0, 300⟩
    (0, 0, 0) (0, 0, 0) rfl rfl rfl (by norm_num [CMD_INTERVAL]) rfl rfl rfl rfl rfl
    (by simp [filterAccept, readyState, initState])

/-- C4: the candidate target position is the baseline robot pose shifted by
the scaled sensor delta under the fixed permutation with sign flips:
robot x ← −(scaled z delta), robot y ← −(scaled x delta),
robot z ← +(scaled y delta). -/
theorem c4_target_position_formula (irp : RobotPose) (ipp cur : Vec3) :
    target_position irp ipp cur =
      (irp.x - (cur.z - ipp.z) * POSITION_SCALE,
       irp.y - (cur.x - ipp.x) * POSITION_SCALE,
       irp.z + (cur.y - ipp.y) * POSITION_SCALE) := rfl

/-- C7: whether the HTTP actuation call succeeds or raises, the gripper
sequence converges through the same completion path: the final state has
`last_sent_coords` cleared and the session unlocked, and the step trace ends
with the settling sleep, the clearing of `last_sent_coords`, the enable
request, and only then the unlock. -/
theorem c7_gripper_converges (s : NodeState) (action : String) (postFails : Bool) :
    (_send_gripper_command s action postFails).last_sent_coords = none ∧
    (_send_gripper_command s action postFails).teleop_locked = false ∧
    ∃ pre, gripOps action postFails =
      pre ++ [GripOp.sleepOp 1, GripOp.clearLastSentOp, GripOp.enableRequestOp,
        GripOp.unlockOp] := by
  cases postFails <;> exact ⟨rfl, rfl, _, rfl⟩

/-- C8: in the run where clear-error fails twice then succeeds, the enable
request is first issued after the third clear attempt; in the run where
enable fails once then succeeds, Ready is reached on the second enable
attempt; each retry is separated by the fixed 1-second delay; and in
general an enable attempt only ever happens after some clear attempt
returned success, and Ready is only ever set by a successful enable
attempt. -/
theorem c8_handshake_ordering :
    clearPhase [1, 1, 0] [0] =
      [HsEvent.clearAttempt, HsEvent.retryDelay 1, HsEvent.clearAttempt,
       HsEvent.retryDelay 1, HsEvent.clearAttempt, HsEvent.enableAttempt,
       HsEvent.readySet] ∧
    clearPhase [0] [1, 0] =
      [HsEvent.clearAttempt, HsEvent.enableAttempt, HsEvent.retryDelay 1,
       HsEvent.enableAttempt, HsEvent.readySet] ∧
    (∀ rs es, HsEvent.enableAttempt ∈ clearPhase rs es → (0 : ℤ) ∈ rs) ∧
    (∀ es, HsEvent.readySet ∈ enablePhase es → (0 : ℤ) ∈ es) := by
  have hen : ∀ es, HsEvent.readySet ∈ enablePhase es → (0 : ℤ) ∈ es := by
    intro es
    induction es with
    | nil => intro h; simp [enablePhase] at h
    | cons r rs ih =>
      intro h
      simp only [enablePhase, List.mem_cons] at h
      rcases h with h | h
      · exact absurd h (by simp)
      by_cases hr : r = 0
      · simp [hr]
      · rw [if_neg hr] at h
        rcases List.mem_cons.mp h with h | h
        · exact absurd h (by simp)
        · exact List.mem_cons_of_mem _ (ih h)
  refine ⟨rfl, rfl, ?_, hen⟩
  intro rs
  induction rs with
  | nil => intro es h; simp [clearPhase] at h
  | cons r rs ih =>
    intro es h
    simp only [clearPhase, List.mem_cons] at h
    rcases h with h | h
    · exact absurd h (by simp)
    by_cases hr : r = 0
    · simp [hr]
    · rw [if_neg hr] at h
      rcases List.mem_cons.mp h with h | h
      · exact absurd h (by simp)
      · exact List.mem_cons_of_mem _ (ih es h)

/-- C8 witness: the general only-after-success facts evaluated on concrete
one-attempt runs. -/
theorem c8_handshake_ordering_witness :
    clearPhase [0] [0] = [HsEvent.clearAttempt, HsEvent.enableAttempt, HsEvent.readySet] ∧
    (0 : ℤ) ∈ ([0] : List ℤ) ∧ (0 : ℤ) ∈ ([1, 0] : List ℤ) :=
  ⟨rfl, c8_handshake_ordering.2.2.1 [0] [0] (by decide),
   c8_handshake_ordering.2.2.2 [1, 0] (by decide)⟩

/-- The concrete boundary distance used for the filter claims:
the clamped candidate `(-100, 0, 300)` is exactly `MIN_MOVE_THRESHOLD = 2`
units away from `(-98, 0, 300)`. -/
theorem distOf_boundary :
    distOf (-100, 0, 300) (-98, 0, 300) = MIN_MOVE_THRESHOLD := by
  rw [distOf, MIN_MOVE_THRESHOLD]
  rw [show ((-100 : ℝ) - -98) ^ 2 + ((0 : ℝ) - 0) ^ 2 + ((300 : ℝ) - 300) ^ 2 = 2 ^ 2 by
    norm_num]
  exact Real.sqrt_sq (by norm_num)

/-- C5: the jump/no-op filter accepts unconditionally when no target was
ever sent; with a last sent target it drops the sample exactly when the
distance strictly exceeds `MAX_JUMP_THRESHOLD` or is strictly below
`MIN_MOVE_THRESHOLD`, so a candidate exactly at either boundary is accepted
and sent. -/
theorem c5_jump_filter (efq : Quat → Euler) (s : NodeState) (msg : Pose)
    (t t0 : ℝ) (ipp : Pose) (irp : RobotPose) (ire ipe : Euler)
    (h1 : s.robot_enabled = true) (h2 : s.teleop_locked = false)
    (h3 : s.last_cmd_time = some t0) (h4 : ¬ (t - t0 < CMD_INTERVAL))
    (h5 : s.initialized = true)
    (h6 : s.initial_phone_pose = some ipp) (h7 : s.initial_robot_pose = some irp)
    (h8 : s.initial_robot_euler = some ire) (h9 : s.initial_phone_euler = some ipe) :
    (s.last_sent_coords = none →
      ar_pose_callback efq s msg t =
        sendStep s (clampEnvelope (target_position irp ipp.position msg.position))
          (target_rotation ire ipe (efq msg.orientation)) t) ∧
    (∀ l, s.last_sent_coords = some l →
      ((ar_pose_callback efq s msg t = Except.ok (s, []) ↔
          distOf (clampEnvelope (target_position irp ipp.position msg.position)) l >
            MAX_JUMP_THRESHOLD ∨
          distOf (clampEnvelope (target_position irp ipp.position msg.position)) l <
            MIN_MOVE_THRESHOLD) ∧
        ((distOf (clampEnvelope (target_position irp ipp.position msg.position)) l =
            MIN_MOVE_THRESHOLD ∨
          distOf (clampEnvelope (target_position irp ipp.position msg.position)) l =
            MAX_JUMP_THRESHOLD) →
          ar_pose_callback efq s msg t =
            sendStep s (clampEnvelope (target_position irp ipp.position msg.position))
              (target_rotation ire ipe (efq msg.orientation)) t))) := by
  constructor
  · intro hls
    exact callback_sends efq s msg t t0 ipp irp ire ipe h1 h2 h3 h4 h5 h6 h7 h8 h9
      (by rw [hls]; trivial)
  · intro l hls
    constructor
    · constructor
      · intro hdrop
        by_contra hacc
        have hsend := callback_sends efq s msg t t0 ipp irp ire ipe h1 h2 h3 h4 h5 h6 h7 h8 h9
          (by rw [hls]; exact hacc)
        rw [hsend] at hdrop
        simp [sendStep] at hdrop
      · intro hrj
        exact callback_drops efq s msg t t0 ipp irp ire ipe l h1 h2 h3 h4 h5 h6 h7 h8 h9
          hls hrj
    · intro hbd
      refine callback_sends efq s msg t t0 ipp irp ire ipe h1 h2 h3 h4 h5 h6 h7 h8 h9 ?_
      rw [hls]
      show ¬ rejectJump _ l
      rw [rejectJump]
      rcases hbd with hbd | hbd <;> rw [hbd] <;>
        simp [MIN_MOVE_THRESHOLD, MAX_JUMP_THRESHOLD] <;> norm_num

/-- The ready state with a last sent target exactly `MIN_MOVE_THRESHOLD`
away from the candidate the next zero-pose sample produces. -/
def boundaryState : NodeState :=
  { readyState with last_sent_coords := some (-98, 0, 300) }

/-- C5 witness: on `boundaryState` the candidate is exactly at the
`MIN_MOVE_THRESHOLD` boundary and the sample is sent, not dropped. -/
theorem c5_jump_filter_witness :
    ar_pose_callback efq0 boundaryState zeroPose 1 =
      sendStep boundaryState
        (clampEnvelope (target_position ⟨-100, 0, 300⟩ zeroPose.position zeroPose.position))
        (target_rotation (0, 0, 0) (0, 0, 0) (efq0 zeroPose.orientation)) 1 :=
  ((c5_jump_filter efq0 boundaryState zeroPose 1 0 zeroPose ⟨-100, 0, 300⟩
      (0, 0, 0) (0, 0, 0) rfl rfl rfl (by norm_num [CMD_INTERVAL]) rfl rfl rfl rfl
      rfl).2
    (-98, 0, 300) rfl).2
    (Or.inl (by
      rw [show clampEnvelope (target_position ⟨-100, 0, 300⟩ zeroPose.position
          zeroPose.position) = ((-100 : ℝ), (0 : ℝ), (300 : ℝ)) by
        simp only [zeroPose, target_position, clampEnvelope, clamp1, POSITION_SCALE,
          LIMITS_X, LIMITS_Y, LIMITS_Z]
        norm_num]
      exact distOf_boundary))

/-- C6 counterexample: at distance exactly `MIN_MOVE_THRESHOLD` the code's
rejection condition is false — the boundary candidate is accepted, not
rejected as the claim ("d ≤ min_move … returns false") demands. -/
theorem c6_counterexample :
    distOf (-100, 0, 300) (-98, 0, 300) = MIN_MOVE_THRESHOLD ∧
    ¬ rejectJump (-100, 0, 300) (-98, 0, 300) := by
  refine ⟨distOf_boundary, ?_⟩
  rw [rejectJump, distOf_boundary]
  rw [MIN_MOVE_THRESHOLD, MAX_JUMP_THRESHOLD]
  norm_num

/-- C6 (amended): with a last sent target present, the callback drops the
sample if and only if the distance is strictly below `MIN_MOVE_THRESHOLD` or
strictly above `MAX_JUMP_THRESHOLD` (both comparisons strict), and a
candidate exactly at the `MIN_MOVE_THRESHOLD` boundary or exactly at the
`MAX_JUMP_THRESHOLD` boundary is accepted and sent, not rejected. -/
theorem c6_strict_rejection (efq : Quat → Euler) (s : NodeState) (msg : Pose)
    (t t0 : ℝ) (ipp : Pose) (irp : RobotPose) (ire ipe : Euler) (l : ℝ × ℝ × ℝ)
    (h1 : s.robot_enabled = true) (h2 : s.teleop_locked = false)
    (h3 : s.last_cmd_time = some t0) (h4 : ¬ (t - t0 < CMD_INTERVAL))
    (h5 : s.initialized = true)
    (h6 : s.initial_phone_pose = some ipp) (h7 : s.initial_robot_pose = some irp)
    (h8 : s.initial_robot_euler = some ire) (h9 : s.initial_phone_euler = some ipe)
    (hls : s.last_sent_coords = some l) :
    (ar_pose_callback efq s msg t = Except.ok (s, []) ↔
      distOf (clampEnvelope (target_position irp ipp.position msg.position)) l <
        MIN_MOVE_THRESHOLD ∨
      MAX_JUMP_THRESHOLD <
        distOf (clampEnvelope (target_position irp ipp.position msg.position)) l) ∧
    ((distOf (clampEnvelope (target_position irp ipp.position msg.position)) l =
        MIN_MOVE_THRESHOLD ∨
      distOf (clampEnvelope (target_position irp ipp.position msg.position)) l =
        MAX_JUMP_THRESHOLD) →
      ar_pose_callback efq s msg t =
        sendStep s (clampEnvelope (target_position irp ipp.position msg.position))
          (target_rotation ire ipe (efq msg.orientation)) t) := by
  constructor
  · constructor
    · intro hdrop
      by_contra hacc
      rw [not_or, not_lt, not_lt] at hacc
      have hsend := callback_sends efq s msg t t0 ipp irp ire ipe h1 h2 h3 h4 h5 h6
        h7 h8 h9 (by
          rw [hls]
          show ¬ rejectJump _ l
          rw [rejectJump, not_or, not_lt, not_lt]
          exact ⟨hacc.2, hacc.1⟩)
      rw [hsend] at hdrop
      simp [sendStep] at hdrop
    · intro hd
      exact callback_drops efq s msg t t0 ipp irp ire ipe l h1 h2 h3 h4 h5 h6 h7 h8
        h9 hls hd.symm
  · intro hbd
    refine callback_sends efq s msg t t0 ipp irp ire ipe h1 h2 h3 h4 h5 h6 h7 h8 h9 ?_
    rw [hls]
    show ¬ rejectJump _ l
    rw [rejectJump]
    rcases hbd with hbd | hbd <;> rw [hbd] <;>
      simp [MIN_MOVE_THRESHOLD, MAX_JUMP_THRESHOLD] <;> norm_num

/-- The ready state with a last sent target only one unit away from the
candidate the next zero-pose sample produces (noise-level jitter). -/
def jitterState : NodeState :=
  { readyState with last_sent_coords := some (-99, 0, 300) }

/-- The jitter distance: the clamped candidate `(-100, 0, 300)` is exactly
one unit from `(-99, 0, 300)`. -/
theorem distOf_unit : distOf (-100, 0, 300) (-99, 0, 300) = 1 := by
  rw [distOf]
  rw [show ((-100 : ℝ) - -99) ^ 2 + ((0 : ℝ) - 0) ^ 2 + ((300 : ℝ) - 300) ^ 2 = 1 ^ 2 by
    norm_num]
  exact Real.sqrt_sq (by norm_num)

/-- C6 witness: a sub-threshold (distance 1) sample on `jitterState` is
dropped with no state change, while a sample exactly at the
`MIN_MOVE_THRESHOLD` boundary on `boundaryState` is accepted and sent. -/
theorem c6_strict_rejection_witness :
    ar_pose_callback efq0 jitterState zeroPose 1 = Except.ok (jitterState, []) ∧
    ar_pose_callback efq0 boundaryState zeroPose 1 =
      sendStep boundaryState
        (clampEnvelope (target_position ⟨-100, 0, 300⟩ zeroPose.position zeroPose.position))
        (target_rotation (0, 0, 0) (0, 0, 0) (efq0 zeroPose.orientation)) 1 :=
  ⟨(c6_strict_rejection efq0 jitterState zeroPose 1 0 zeroPose ⟨-100, 0, 300⟩
      (0, 0, 0) (0, 0, 0) (-99, 0, 300) rfl rfl rfl (by norm_num [CMD_INTERVAL]) rfl
      rfl rfl rfl rfl rfl).1.mpr
    (Or.inl (by
      rw [show clampEnvelope (target_position ⟨-100, 0, 300⟩ zeroPose.position
          zeroPose.position) = ((-100 : ℝ), (0 : ℝ), (300 : ℝ)) by
        simp only [zeroPose, target_position, clampEnvelope, clamp1, POSITION_SCALE,
          LIMITS_X, LIMITS_Y, LIMITS_Z]
        norm_num]
      rw [distOf_unit, MIN_MOVE_THRESHOLD]
      norm_num)),
   (c6_strict_rejection efq0 boundaryState zeroPose 1 0 zeroPose ⟨-100, 0, 300⟩
      (0, 0, 0) (0, 0, 0) (-98, 0, 300) rfl rfl rfl (by norm_num [CMD_INTERVAL]) rfl
      rfl rfl rfl rfl rfl).2
    (Or.inl (by
      rw [show clampEnvelope (target_position ⟨-100, 0, 300⟩ zeroPose.position
          zeroPose.position) = ((-100 : ℝ), (0 : ℝ), (300 : ℝ)) by
        simp only [zeroPose, target_position, clampEnvelope, clamp1, POSITION_SCALE,
          LIMITS_X, LIMITS_Y, LIMITS_Z]
        norm_num]
      exact distOf_boundary))⟩

/-- C9: each clamped axis lies within its envelope bounds whenever the
envelope is well-formed (`lo ≤ hi`), clamping is the identity on values
already within bounds (hence idempotent), and the callback applies the
envelope clamp only to the position — the orientation it sends is the raw
`target_rotation`, passed through unclamped. -/
theorem c9_clamp_envelope :
    (∀ lo hi v : ℝ, lo ≤ hi → lo ≤ clamp1 lo hi v ∧ clamp1 lo hi v ≤ hi) ∧
    (∀ lo hi v : ℝ, lo ≤ v → v ≤ hi → clamp1 lo hi v = v) ∧
    (∀ (efq : Quat → Euler) (s : NodeState) (msg : Pose) (t t0 : ℝ) (ipp : Pose)
      (irp : RobotPose) (ire ipe : Euler),
      s.robot_enabled = true → s.teleop_locked = false →
      s.last_cmd_time = some t0 → ¬ (t - t0 < CMD_INTERVAL) →
      s.initialized = true →
      s.initial_phone_pose = some ipp → s.initial_robot_pose = some irp →
      s.initial_robot_euler = some ire → s.initial_phone_euler = some ipe →
      filterAccept s.last_sent_coords
        (clampEnvelope (target_position irp ipp.position msg.position)) →
      ar_pose_callback efq s msg t =
        sendStep s (clampEnvelope (target_position irp ipp.position msg.position))
          (target_rotation ire ipe (efq msg.orientation)) t) := by
  refine ⟨?_, ?_, ?_⟩
  · intro lo hi v h
    exact ⟨le_max_left _ _, max_le h (min_le_right _ _)⟩
  · intro lo hi v hlo hhi
    rw [clamp1, min_eq_left hhi, max_eq_right hlo]
  · intro efq s msg t t0 ipp irp ire ipe h1 h2 h3 h4 h5 h6 h7 h8 h9 h10
    exact callback_sends efq s msg t t0 ipp irp ire ipe h1 h2 h3 h4 h5 h6 h7 h8 h9 h10

/-- C9 witness: the clamp evaluated on the x envelope `(-800, 0)` at the
in-bounds value `-100`. -/
theorem c9_clamp_envelope_witness :
    ((-800 : ℝ) ≤ clamp1 (-800) 0 (-100) ∧ clamp1 (-800 : ℝ) 0 (-100) ≤ 0) ∧
    clamp1 (-800 : ℝ) 0 (-100) = -100 :=
  ⟨c9_clamp_envelope.1 (-800) 0 (-100) (by norm_num),
   c9_clamp_envelope.2.1 (-800) 0 (-100) (by norm_num) (by norm_num)⟩

/-- C10: in a fully initialized session, processing a sensor sample never
raises, never touches the lock, gating flags, gripper annotation, or any of
the four session baselines, and a sample that produces no outgoing effect
(gated out or rejected by the filter) leaves the state entirely unchanged. -/
theorem c10_frame (efq : Quat → Euler) (s : NodeState) (msg : Pose) (t t0 : ℝ)
    (hinit : s.initialized = true) (hlt : s.last_cmd_time = some t0)
    (hpp : s.initial_phone_pose.isSome = true)
    (hrp : s.initial_robot_pose.isSome = true)
    (hre : s.initial_robot_euler.isSome = true)
    (hpe : s.initial_phone_euler.isSome = true) :
    ∃ s' eff, ar_pose_callback efq s msg t = Except.ok (s', eff) ∧
      s'.teleop_locked = s.teleop_locked ∧
      s'.current_gripper_val = s.current_gripper_val ∧
      s'.robot_enabled = s.robot_enabled ∧
      s'.initialized = s.initialized ∧
      s'.robot_pose_initialized = s.robot_pose_initialized ∧
      s'.getting_initial_pose_flag = s.getting_initial_pose_flag ∧
      s'.initial_robot_pose = s.initial_robot_pose ∧
      s'.initial_robot_euler = s.initial_robot_euler ∧
      s'.initial_phone_pose = s.initial_phone_pose ∧
      s'.initial_phone_euler = s.initial_phone_euler ∧
      (eff = [] → s' = s) := by
  obtain ⟨ipp, hpp'⟩ := Option.isSome_iff_exists.mp hpp
  obtain ⟨irp, hrp'⟩ := Option.isSome_iff_exists.mp hrp
  obtain ⟨ire, hre'⟩ := Option.isSome_iff_exists.mp hre
  obtain ⟨ipe, hpe'⟩ := Option.isSome_iff_exists.mp hpe
  by_cases h1 : s.robot_enabled = false
  · exact ⟨s, [], by unfold ar_pose_callback; rw [if_pos h1], rfl, rfl, rfl, rfl,
      rfl, rfl, rfl, rfl, rfl, rfl, fun _ => rfl⟩
  replace h1 : s.robot_enabled = true := by
    cases hb : s.robot_enabled
    · exact absurd hb h1
    · rfl
  by_cases h2 : s.teleop_locked = true
  · refine ⟨s, [], ?_, rfl, rfl, rfl, rfl, rfl, rfl, rfl, rfl, rfl, rfl, fun _ => rfl⟩
    unfold ar_pose_callback
    rw [h1, h2]
    simp
  replace h2 : s.teleop_locked = false := by
    cases hb : s.teleop_locked
    · rfl
    · exact absurd hb h2
  by_cases h4 : t - t0 < CMD_INTERVAL
  · refine ⟨s, [], ?_, rfl, rfl, rfl, rfl, rfl, rfl, rfl, rfl, rfl, rfl, fun _ => rfl⟩
    unfold ar_pose_callback
    rw [h1, h2, hlt]
    simp only [Bool.true_eq_false, if_false, Bool.false_eq_true, if_pos h4]
  cases hls : s.last_sent_coords with
  | none =>
    have hsend := callback_sends efq s msg t t0 ipp irp ire ipe h1 h2 hlt h4 hinit
      hpp' hrp' hre' hpe' (by rw [hls]; trivial)
    exact ⟨_, _, hsend, rfl, rfl, rfl, rfl, rfl, rfl, rfl, rfl, rfl, rfl,
      fun h => nomatch h⟩
  | some l =>
    by_cases hrj : rejectJump (clampEnvelope (target_position irp ipp.position
        msg.position)) l
    · have hdrop := callback_drops efq s msg t t0 ipp irp ire ipe l h1 h2 hlt h4
        hinit hpp' hrp' hre' hpe' hls hrj
      exact ⟨s, [], hdrop, rfl, rfl, rfl, rfl, rfl, rfl, rfl, rfl, rfl, rfl,
        fun _ => rfl⟩
    · have hsend := callback_sends efq s msg t t0 ipp irp ire ipe h1 h2 hlt h4 hinit
        hpp' hrp' hre' hpe' (by rw [hls]; exact hrj)
      exact ⟨_, _, hsend, rfl, rfl, rfl, rfl, rfl, rfl, rfl, rfl, rfl, rfl,
        fun h => nomatch h⟩

/-- C10 witness: the frame property evaluated on the concrete fully
initialized ready state. -/
theorem c10_frame_witness :
    ∃ s' eff, ar_pose_callback efq0 readyState zeroPose 1 = Except.ok (s', eff) ∧
      s'.teleop_locked = readyState.teleop_locked ∧
      s'.current_gripper_val = readyState.current_gripper_val ∧
      s'.robot_enabled = readyState.robot_enabled ∧
      s'.initialized = readyState.initialized ∧
      s'.robot_pose_initialized = readyState.robot_pose_initialized ∧
      s'.getting_initial_pose_flag = readyState.getting_initial_pose_flag ∧
      s'.initial_robot_pose = readyState.initial_robot_pose ∧
      s'.initial_robot_euler = readyState.initial_robot_euler ∧
      s'.initial_phone_pose = readyState.initial_phone_pose ∧
      s'.initial_phone_euler = readyState.initial_phone_euler ∧
      (eff = [] → s' = readyState) :=
  c10_frame efq0 readyState zeroPose 1 0 rfl rfl rfl rfl rfl rfl

end DobotTeleop
